import Mathlib

/-!
Verification of the GeoShield landslide-risk core: a shallow embedding of
the model registry (`ml-service/app/ml/registry/model_store.py`), the
single-prediction endpoint (`ml-service/app/api/v1/endpoints/predict.py`),
and the Node-backend bridge predictor (`server/ml/predict.py`).

Python floats are modelled as rationals (`ℚ`); the only genuinely
irrational quantity on a verified path is `numpy.std`, which is
characterised relationally over `ℝ` (`IsNpStd`).  Transcendental distance
functions (haversine, planar degree-space distance) are abstracted as
function parameters: every property proved below holds for an arbitrary
distance function, hence in particular for the ones the source uses.
-/

/-! ## Risk classification (ml-service endpoint, config thresholds) -/

/-- The five-tier risk enum of `app/schemas/prediction.py`. -/
inductive RiskLevel where
  | veryLow
  | low
  | moderate
  | high
  | severe
deriving DecidableEq, Repr

/-- `Settings.LOW_RISK_THRESHOLD` in `app/core/config.py` (0.3). -/
def LOW_RISK_THRESHOLD : ℚ := 3/10

/-- `Settings.MODERATE_RISK_THRESHOLD` in `app/core/config.py` (0.5). -/
def MODERATE_RISK_THRESHOLD : ℚ := 1/2

/-- `Settings.HIGH_RISK_THRESHOLD` in `app/core/config.py` (0.7). -/
def HIGH_RISK_THRESHOLD : ℚ := 7/10

/-- `Settings.SEVERE_RISK_THRESHOLD` in `app/core/config.py` (0.9). -/
def SEVERE_RISK_THRESHOLD : ℚ := 9/10

/-- The risk-level mapping inlined in `predict_single`
(`app/api/v1/endpoints/predict.py`, lines 57-66): a chain of
`probability >= threshold` tests from the severest tier downward. -/
def classifyRisk (probability : ℚ) : RiskLevel :=
  if probability ≥ SEVERE_RISK_THRESHOLD then .severe
  else if probability ≥ HIGH_RISK_THRESHOLD then .high
  else if probability ≥ MODERATE_RISK_THRESHOLD then .moderate
  else if probability ≥ LOW_RISK_THRESHOLD then .low
  else .veryLow

/-! ## Geographic adjustment and the Node-backend bridge
(`server/ml/predict.py`) -/

/-- The district-multiplier adjustment of `LandslideMLPredictor.predict`
(line 328): `min(probability * risk_multiplier, 1.0)`. -/
def adjust (rawProbability riskMultiplier : ℚ) : ℚ :=
  min (rawProbability * riskMultiplier) 1

/-- Module-level `determine_final_risk` of `server/ml/predict.py`
(lines 27-39): the four-tier mapping used by the Node bridge. -/
def determine_final_risk (probability : ℚ) : String :=
  if probability < 3/10 then "LOW"
  else if probability < 3/5 then "MODERATE"
  else if probability < 4/5 then "HIGH"
  else "CRITICAL"

/-- The fields of the bridge prediction result relevant to risk
reporting (`server/ml/predict.py`, lines 348-356 and 360-366). -/
structure BridgeResult where
  success : Bool
  ml_probability : ℚ
  risk_level : String
  confidence : ℚ
deriving DecidableEq, Repr

/-- Success path of `LandslideMLPredictor.predict` (lines 326-356), as a
function of the raw model probability and the district risk multiplier:
adjusted probability, confidence `|adjusted - 0.5| * 2`, and the risk
level computed by the inline threshold chain of lines 337-344 (textually
identical to `determine_final_risk`). -/
def bridgePredictSuccess (rawProbability riskMultiplier : ℚ) : BridgeResult :=
  let adjustedProbability := adjust rawProbability riskMultiplier
  ⟨true, adjustedProbability,
    if adjustedProbability < 3/10 then "LOW"
    else if adjustedProbability < 3/5 then "MODERATE"
    else if adjustedProbability < 4/5 then "HIGH"
    else "CRITICAL",
    |adjustedProbability - 1/2| * 2⟩

/-- Failure path of `LandslideMLPredictor.predict` (lines 358-366): a
fixed result with `risk_level = "UNKNOWN"`, `ml_probability = 0.5`,
`confidence = 0.0`. -/
def bridgePredictFailure : BridgeResult :=
  ⟨false, 1/2, "UNKNOWN", 0⟩

/-! ## Model registry (`app/ml/registry/model_store.py`) -/

/-- A loaded classifier artifact: the registry only ever calls
`predict_proba(X)[0][1]` (positive-class probability for one feature
row) and reads the optional `feature_importances_` attribute, so a model
is modelled by exactly those two capabilities. -/
structure MLModel where
  predictProbaPos : List ℚ → ℚ
  featureImportances : Option (List ℚ)

/-- A model metadata dict, restricted to the boolean-valued keys the
design cares about (such as `is_fallback`). -/
def Metadata := List (String × Bool)

/-- In-memory state of `ModelRegistry`: the `models` dict, the
`model_metadata` dict, and the `loaded` flag (`__init__` sets
`models = {}`, `model_metadata = {}`, `loaded = False`). -/
structure Registry where
  models : List (String × MLModel)
  modelMetadata : List (String × Metadata)
  loaded : Bool

/-- Dict lookup: first binding of the key, if any. -/
def lookupKey {β : Type} (l : List (String × β)) (k : String) : Option β :=
  (l.find? (fun p => p.1 = k)).map Prod.snd

/-- Dict assignment `d[k] = v`: replaces any existing binding. -/
def insertKey {β : Type} (l : List (String × β)) (k : String) (v : β) :
    List (String × β) :=
  (k, v) :: l.filter (fun p => p.1 ≠ k)

/-- A freshly constructed registry (`ModelRegistry.__init__`). -/
def freshRegistry : Registry :=
  ⟨[], [], false⟩

/-- `ModelRegistry.get_model`: `self.models.get(model_name)`. -/
def get_model (reg : Registry) (modelName : String) : Option MLModel :=
  lookupKey reg.models modelName

/-- `ModelRegistry.get_metadata`: `self.model_metadata.get(name, {})`. -/
def get_metadata (reg : Registry) (modelName : String) : Metadata :=
  (lookupKey reg.modelMetadata modelName).getD []

/-- `ModelRegistry.is_ready`: `self.loaded and "ensemble" in self.models`. -/
def is_ready (reg : Registry) : Bool :=
  reg.loaded && (lookupKey reg.models "ensemble").isSome

/-- `ModelRegistry.save_model` (in-memory effect): registers the model,
and the metadata when one is given; the `loaded` flag is not touched.
(The disk write that precedes registration is I/O outside this model.) -/
def save_model (reg : Registry) (modelName : String) (model : MLModel)
    (metadata : Option Metadata) : Registry :=
  ⟨insertKey reg.models modelName model,
   match metadata with
   | some md => insertKey reg.modelMetadata modelName md
   | none => reg.modelMetadata,
   reg.loaded⟩

/-- `ModelRegistry.unload_model`: removes the binding if present. -/
def unload_model (reg : Registry) (modelName : String) : Registry :=
  ⟨reg.models.filter (fun p => p.1 ≠ modelName), reg.modelMetadata, reg.loaded⟩

/-- The model slots `load_models` iterates over, with their artifact
file names (`model_store.py`, lines 47-56). -/
def modelSlots : List (String × String) :=
  [("xgboost", "xgboost_model.pkl"),
   ("lightgbm", "lightgbm_model.pkl"),
   ("random_forest", "random_forest_model.pkl"),
   ("svm", "svm_model.pkl"),
   ("neural_network", "neural_network_model.pkl"),
   ("ensemble", "ensemble_model.pkl"),
   ("preprocessor", "preprocessor.pkl"),
   ("pca", "pca_model.pkl")]

/-- `ModelRegistry._create_dummy_models`: registers one freshly fitted
stand-in classifier (abstracted as the parameter `dummy`, since it is a
RandomForest fitted on random synthetic data) under the ensemble slot,
every member slot, and the preprocessor slot.  No metadata is written. -/
def createDummyModels (dummy : MLModel) (reg : Registry) : Registry :=
  ⟨insertKey (insertKey (insertKey (insertKey (insertKey (insertKey
      (insertKey reg.models "ensemble" dummy)
      "xgboost" dummy) "lightgbm" dummy) "random_forest" dummy)
      "svm" dummy) "neural_network" dummy) "preprocessor" dummy,
   reg.modelMetadata, reg.loaded⟩

/-- One iteration of the `load_models` loop for a slot: if the artifact
store yields a model for the slot's file, register it and any adjacent
metadata; otherwise skip (logged, non-fatal). -/
def loadSlot (store : String → Option MLModel)
    (metaStore : String → Option Metadata) (reg : Registry)
    (slot : String × String) : Registry :=
  match store slot.2 with
  | some m =>
      ⟨insertKey reg.models slot.1 m,
       match metaStore slot.1 with
       | some md => insertKey reg.modelMetadata slot.1 md
       | none => reg.modelMetadata,
       reg.loaded⟩
  | none => reg

/-- `ModelRegistry.load_models`: attempt each slot from the artifact
store (`store` maps an artifact file name to a loaded model, `none` for
missing or corrupt artifacts; `metaStore` maps a slot name to its
adjacent metadata blob); if zero artifacts loaded, fabricate dummy
models; finally set `loaded = True`. -/
def load_models (store : String → Option MLModel)
    (metaStore : String → Option Metadata) (dummy : MLModel)
    (reg : Registry) : Registry :=
  let afterLoop := modelSlots.foldl (loadSlot store metaStore) reg
  let loadedCount := (modelSlots.filter (fun slot => (store slot.2).isSome)).length
  let afterDummy := if loadedCount = 0 then createDummyModels dummy afterLoop else afterLoop
  ⟨afterDummy.models, afterDummy.modelMetadata, true⟩

/-! ## Ensemble confidence (`predict_single`, lines 83-92) -/

/-- `numpy` mean of a list of rationals. -/
def npMean (l : List ℚ) : ℚ :=
  l.sum / (l.length : ℚ)

/-- `numpy` population variance: mean squared deviation from the mean. -/
def npVariance (l : List ℚ) : ℚ :=
  ((l.map (fun x => (x - npMean l) ^ 2)).sum) / (l.length : ℚ)

/-- Relational characterisation of `numpy.std`: `s` is the nonnegative
real square root of the population variance. -/
def IsNpStd (l : List ℚ) (s : ℝ) : Prop :=
  0 ≤ s ∧ s ^ 2 = (npVariance l : ℝ)

/-- The confidence computation of `predict_single` (lines 91-92):
`1.0 - np.std(preds)` when more than one member prediction was
collected, else the fixed `0.8`; then `min(max(confidence, 0.0), 1.0)`.
Generic over the value field so the (irrational) standard deviation can
be instantiated at `ℝ` while everything else stays computable. -/
def confidenceFrom {α : Type} [LinearOrderedField α] (std : List ℚ → α)
    (preds : List ℚ) : α :=
  min (max (if 1 < preds.length then 1 - std preds else 4/5) 0) 1

/-- The member slots polled for the confidence estimate
(`predict_single`, line 85). -/
def memberNames : List String :=
  ["xgboost", "lightgbm", "random_forest", "neural_network", "svm"]

/-- The member positive-class predictions collected by the loop at
lines 84-89: each loaded member model, run on the same feature row. -/
def memberPreds (reg : Registry) (features : List ℚ) : List ℚ :=
  memberNames.filterMap
    (fun n => (get_model reg n).map (fun m => m.predictProbaPos features))

/-! ## Single-prediction endpoint (`predict_single`) -/

/-- An HTTP exception: status code and detail string. -/
structure HttpError where
  status : ℕ
  detail : String
deriving DecidableEq, Repr

/-- `str(e)` for a FastAPI `HTTPException`: `f"{status_code}: {detail}"`. -/
def httpErrorStr (e : HttpError) : String :=
  toString e.status ++ ": " ++ e.detail

/-- `Settings.FEATURE_COLUMNS` (`app/core/config.py`, lines 70-88). -/
def FEATURE_COLUMNS : List String :=
  ["rainfall_intensity", "soil_moisture", "ndvi", "slope_angle",
   "elevation", "lithology_code", "land_use_code", "distance_to_road",
   "distance_to_river", "drainage_density", "curvature", "aspect",
   "twi", "historical_landslides", "precipitation_30d", "temperature",
   "humidity"]

/-- Feature-importance extraction (`predict_single`, lines 68-81): if
the xgboost member is loaded and exposes importances, zip them with the
configured feature names and sort descending by importance. -/
def featureImportanceOf (reg : Registry) : List (String × ℚ) :=
  match get_model reg "xgboost" with
  | some m =>
      match m.featureImportances with
      | some imps =>
          (FEATURE_COLUMNS.zip imps).insertionSort (fun a b => b.2 ≤ a.2)
      | none => []
  | none => []

/-- The body of the endpoint response relevant to the claims. -/
structure PredResponse (α : Type) where
  probability : ℚ
  riskLevel : RiskLevel
  confidence : α
  featureImportance : List (String × ℚ)

/-- The `try` body of `predict_single` (lines 39-107): fetch the
ensemble model (raising the 503 service-unavailable `HTTPException`
when absent), compute the positive-class probability, classify it, poll
the member models for the confidence estimate, extract feature
importance. -/
def predictSingleBody {α : Type} [LinearOrderedField α]
    (std : List ℚ → α) (reg : Registry) (features : List ℚ) :
    Except HttpError (PredResponse α) :=
  match get_model reg "ensemble" with
  | none => .error ⟨503, "Ensemble model not available"⟩
  | some ensemble =>
      let probability := ensemble.predictProbaPos features
      .ok ⟨probability, classifyRisk probability,
           confidenceFrom std (memberPreds reg features),
           featureImportanceOf reg⟩

/-- The whole `predict_single` handler: the blanket
`except Exception as e` at line 109 catches every exception raised in
the body — including the 503 `HTTPException` itself, since FastAPI
`HTTPException` subclasses `Exception` — and re-raises it as a 500 with
detail `f"Prediction failed: {str(e)}"`. -/
def predictSingle {α : Type} [LinearOrderedField α]
    (std : List ℚ → α) (reg : Registry) (features : List ℚ) :
    Except HttpError (PredResponse α) :=
  match predictSingleBody std reg features with
  | .error e => .error ⟨500, "Prediction failed: " ++ httpErrorStr e⟩
  | .ok r => .ok r

/-! ## Bridge feature mapping (`server/ml/predict.py`, lines 257-311) -/

/-- `d.get(k, 0.0)` over an association-list dict. -/
def lookupD (d : List (String × ℚ)) (k : String) : ℚ :=
  ((d.find? (fun p => p.1 = k)).map Prod.snd).getD 0

/-- The `mapped_features` dict built at lines 264-292 from the raw API
inputs: derived trigger probabilities, binary trigger flags, the
monsoon flags (from the current calendar month, passed here as a
parameter since it is read from the wall clock), and the fixed
classification-type fields. -/
def mappedFeatures (featuresDict : List (String × ℚ)) (month : ℕ) :
    List (String × ℚ) :=
  let rainfall24 := lookupD featuresDict "rainfall_24h"
  let rainfall72 := lookupD featuresDict "rainfall_72h"
  let eqCount := lookupD featuresDict "earthquake_count"
  let eqMag := lookupD featuresDict "max_earthquake_magnitude"
  let popDensity := lookupD featuresDict "population_density"
  let isMonsoon : ℚ := if 6 ≤ month ∧ month ≤ 9 then 1 else 0
  [("rainfall_trigger_prob", min 1 ((rainfall24 / 100 + rainfall72 / 300) / 2)),
   ("trigger_rainfall", if 50 < rainfall24 then 1 else 0),
   ("earthquake_trigger_prob", min 1 ((eqCount / 10 + eqMag / 10) / 2)),
   ("trigger_earthquake", if 0 < eqCount then 1 else 0),
   ("human_activity_trigger_prob", min 1 (popDensity / 5000)),
   ("trigger_anthropogenic", if 1000 < popDensity then 1 else 0),
   ("monsoon_2014", isMonsoon),
   ("monsoon_2017", isMonsoon),
   ("field_based", 0),
   ("event_based", 1)]

/-- Line 297: `[mapped_features.get(fname, 0.0) for fname in feature_list]`
— the feature vector carrying the computed derived values. -/
def intendedFeatureVector (featureList : List String)
    (featuresDict : List (String × ℚ)) (month : ℕ) : List ℚ :=
  featureList.map (lookupD (mappedFeatures featuresDict month))

/-- Lines 308-311: `[float(features_dict.get(f, 0.0)) for f in feature_list]`
— direct lookups of each declared name in the caller's dict. -/
def directFeatureVector (featureList : List String)
    (featuresDict : List (String × ℚ)) : List ℚ :=
  featureList.map (lookupD featuresDict)

/-- The hardcoded fallback feature list (lines 300-305), used when the
model metadata declares no feature names. -/
def defaultFeatureList : List String :=
  ["latitude", "longitude", "temperature", "humidity", "pressure",
   "wind_speed", "rainfall_24h", "rainfall_72h", "elevation", "slope",
   "earthquake_count", "max_earthquake_magnitude", "soil_moisture",
   "ndvi", "distance_to_fault", "population_density"]

/-- The feature vector `LandslideMLPredictor.predict` actually passes
to the model (control flow of lines 258-311): when metadata declares
feature names, line 297 builds the vector from `mapped_features`, but
the unconditional loop at lines 308-311 then rebinds `features` to
direct lookups in `features_dict`, discarding the mapped vector; when
no names are declared, the default list is looked up directly. -/
def predictFeatureVector (featureNames : Option (List String))
    (featuresDict : List (String × ℚ)) (month : ℕ) : List ℚ :=
  match featureNames with
  | some names =>
      let _discarded := intendedFeatureVector names featuresDict month
      directFeatureVector names featuresDict
  | none => directFeatureVector defaultFeatureList featuresDict

/-! ## Geographic reference tables (`server/ml/predict.py`) -/

/-- One row of the historical-events table: `latitude`, `longitude`,
`district`. -/
structure EventRow where
  lat : ℚ
  lon : ℚ
  district : String
deriving DecidableEq, Repr

/-- One row of the district-rank table: `district`, `rank`, `state`. -/
structure DistrictRow where
  district : String
  rank : ℤ
  state : String
deriving DecidableEq, Repr

/-- The predictor's loaded reference state: the historical-events
DataFrame (its original columns as `eventRows`, plus the scratch
columns `distance` and `dist` that the lookup methods write into it)
and the district-rank DataFrame. -/
structure PredictorState where
  eventRows : List EventRow
  distanceCol : Option (List ℚ)
  distCol : Option (List ℚ)
  districtTable : List DistrictRow
deriving DecidableEq, Repr

/-- Per-event distances from the query point, for a given distance
function `d` (the code uses haversine in `get_historical_score` and
planar degree-space distance in `get_district_info`; both are
transcendental-valued, so `d` is a parameter here). -/
def eventDistances (d : ℚ → ℚ → ℚ → ℚ → ℚ) (lat lon : ℚ)
    (rows : List EventRow) : List ℚ :=
  rows.map (fun e => d lat lon e.lat e.lon)

/-- Count factor of `get_historical_score` (line 166):
`min(event_count / 10, 1.0)`. -/
def countScore (eventCount : ℕ) : ℚ :=
  min ((eventCount : ℚ) / 10) 1

/-- Proximity factor of `get_historical_score` (line 167):
`1 - (avg_distance / radius_km)`. -/
def proximityScore (avgDistance radius : ℚ) : ℚ :=
  1 - avgDistance / radius

/-- Combined score of `get_historical_score` (line 169):
`count_score * 0.6 + proximity_score * 0.4`. -/
def combineScore (eventCount : ℕ) (avgDistance radius : ℚ) : ℚ :=
  countScore eventCount * (3/5) + proximityScore avgDistance radius * (2/5)

/-- `LandslideMLPredictor.get_historical_score` (lines 132-175), state
passing made explicit: returns 0 for an absent or empty events table;
otherwise writes the per-event haversine distances into the shared
DataFrame as the `distance` column, filters to events within the
radius, returns 0 if none remain, and otherwise the combined
count/proximity score.  The filtered within-radius distance list: -/
def nearbyDistances (d : ℚ → ℚ → ℚ → ℚ → ℚ) (lat lon radius : ℚ)
    (rows : List EventRow) : List ℚ :=
  (eventDistances d lat lon rows).filter (fun x => x ≤ radius)

/-- The score returned once the events table is known nonempty: 0 when
no event is within the radius, else the combined count/proximity score
over the nearby events. -/
def historicalScoreValue (d : ℚ → ℚ → ℚ → ℚ → ℚ) (lat lon radius : ℚ)
    (rows : List EventRow) : ℚ :=
  if (nearbyDistances d lat lon radius rows).length = 0 then 0
  else
    combineScore (nearbyDistances d lat lon radius rows).length
      ((nearbyDistances d lat lon radius rows).sum
        / ((nearbyDistances d lat lon radius rows).length : ℚ)) radius

def get_historical_score (d : ℚ → ℚ → ℚ → ℚ → ℚ) (s : PredictorState)
    (lat lon radius : ℚ) : ℚ × PredictorState :=
  if s.eventRows.isEmpty then (0, s)
  else
    (historicalScoreValue d lat lon radius s.eventRows,
     ⟨s.eventRows, some (eventDistances d lat lon s.eventRows),
      s.distCol, s.districtTable⟩)

/-- The `district_info` record returned by `get_district_info`. -/
structure DistrictInfo where
  district_rank : ℤ
  district_name : String
  state_name : String
  risk_multiplier : ℚ
deriving DecidableEq, Repr

/-- The neutral defaults of `get_district_info` (lines 182-187). -/
def defaultDistrictInfo : DistrictInfo :=
  ⟨0, "Unknown", "Unknown", 1⟩

/-- Index of the first minimal element of a list (the row pandas
`nsmallest(1, col)` selects). -/
def argminIdx (l : List ℚ) : Option ℕ :=
  l.min?.map (fun m => l.indexOf m)

/-- The district-info lookup of `get_district_info` (lines 205-225):
take the district of the nearest event (`nsmallest(1, 'dist')`), match
it case-insensitively in the district-rank table, and derive
`risk_multiplier = max(1.0, 2.0 - rank / 72)`; any lookup miss yields
the neutral defaults. -/
def districtInfoAt (rows : List EventRow) (table : List DistrictRow)
    (dists : List ℚ) : DistrictInfo :=
  match argminIdx dists with
  | none => defaultDistrictInfo
  | some i =>
      let districtName := ((rows.get? i).map (fun e => e.district)).getD "Unknown"
      match table.find? (fun r => r.district.toLower = districtName.toLower) with
      | none => defaultDistrictInfo
      | some row =>
          ⟨row.rank, districtName, row.state, max 1 (2 - (row.rank : ℚ) / 72)⟩

/-- `LandslideMLPredictor.get_district_info` (lines 177-231), state
passing made explicit: neutral defaults when either table is absent or
empty; otherwise writes the per-event planar distances into the shared
events DataFrame as the `dist` column (the mutation happens before the
nearest-event selection, so the new state is the same on every path of
the inner lookup) and performs the district lookup. -/
def get_district_info (d : ℚ → ℚ → ℚ → ℚ → ℚ) (s : PredictorState)
    (lat lon : ℚ) : DistrictInfo × PredictorState :=
  if s.districtTable.isEmpty then (defaultDistrictInfo, s)
  else if s.eventRows.isEmpty then (defaultDistrictInfo, s)
  else
    (districtInfoAt s.eventRows s.districtTable
        (eventDistances d lat lon s.eventRows),
     ⟨s.eventRows, s.distanceCol, some (eventDistances d lat lon s.eventRows),
      s.districtTable⟩)

/-! ## Concrete fixtures used as inputs in witnesses and
counterexamples -/

/-- A concrete stand-in classifier, used only as an input value. -/
def stubModel : MLModel :=
  ⟨fun _ => 1/2, none⟩

/-- A one-event historical table for concrete evaluation. -/
def sampleEvents : List EventRow :=
  [⟨0, 0, "TestDistrict"⟩]

/-- A one-row district-rank table for concrete evaluation. -/
def sampleDistricts : List DistrictRow :=
  [⟨"testdistrict", 1, "TestState"⟩]

/-- Freshly loaded predictor reference state: no scratch columns yet. -/
def sampleState : PredictorState :=
  ⟨sampleEvents, none, none, sampleDistricts⟩

/-- A constant distance function (every event 10 km away). -/
def constDist : ℚ → ℚ → ℚ → ℚ → ℚ :=
  fun _ _ _ _ => 10

/-! ## Theorems -/

/-- Helper: characterisation of the four-tier threshold chain of
`determine_final_risk`. -/
theorem determine_final_risk_spec (p : ℚ) :
    (determine_final_risk p = "LOW" ↔ p < 3/10) ∧
    (determine_final_risk p = "MODERATE" ↔ 3/10 ≤ p ∧ p < 3/5) ∧
    (determine_final_risk p = "HIGH" ↔ 3/5 ≤ p ∧ p < 4/5) ∧
    (determine_final_risk p = "CRITICAL" ↔ 4/5 ≤ p) := by
  unfold determine_final_risk
  split_ifs with h1 h2 h3 <;>
    refine ⟨?_, ?_, ?_, ?_⟩ <;> simp_all <;> (try push_neg) <;>
    first
      | linarith
      | (constructor <;> linarith)
      | (intro h; linarith)

/-- C1: for every probability `p`, `classifyRisk` (the risk-level
mapping in `predict_single`) is total and assigns exactly one of the
five tiers; the tiers partition the line (hence `[0,1]`) at the
thresholds 0.3/0.5/0.7/0.9 with no gap and no overlap, and a
probability exactly equal to a threshold lands in the higher tier. -/
theorem classifyRisk_partition (p : ℚ) :
    (classifyRisk p = .veryLow ↔ p < LOW_RISK_THRESHOLD) ∧
    (classifyRisk p = .low ↔ LOW_RISK_THRESHOLD ≤ p ∧ p < MODERATE_RISK_THRESHOLD) ∧
    (classifyRisk p = .moderate ↔ MODERATE_RISK_THRESHOLD ≤ p ∧ p < HIGH_RISK_THRESHOLD) ∧
    (classifyRisk p = .high ↔ HIGH_RISK_THRESHOLD ≤ p ∧ p < SEVERE_RISK_THRESHOLD) ∧
    (classifyRisk p = .severe ↔ SEVERE_RISK_THRESHOLD ≤ p) ∧
    classifyRisk LOW_RISK_THRESHOLD = .low ∧
    classifyRisk MODERATE_RISK_THRESHOLD = .moderate ∧
    classifyRisk HIGH_RISK_THRESHOLD = .high ∧
    classifyRisk SEVERE_RISK_THRESHOLD = .severe := by
  unfold classifyRisk LOW_RISK_THRESHOLD MODERATE_RISK_THRESHOLD
    HIGH_RISK_THRESHOLD SEVERE_RISK_THRESHOLD
  refine ⟨?_, ?_, ?_, ?_, ?_, by norm_num, by norm_num, by norm_num, by norm_num⟩ <;>
    split_ifs with h1 h2 h3 h4 <;> simp_all <;> (try push_neg) <;>
    first
      | linarith
      | (constructor <;> linarith)
      | (intro h; linarith)

/-- C5: the adjusted probability is `min(p * m, 1.0)`; for `p ∈ [0,1]`
and multipliers `1 ≤ m ≤ m'` it is monotonically non-decreasing in the
multiplier and always at most 1; `adjust 0.5 1.5 = 0.75` and
`adjust 0.6 1.8` clamps to 1. -/
theorem adjust_spec (p m mBig : ℚ) (hp0 : 0 ≤ p) (hp1 : p ≤ 1)
    (hm : 1 ≤ m) (hmm : m ≤ mBig) :
    adjust p m = min (p * m) 1 ∧
    adjust p m ≤ adjust p mBig ∧
    adjust p m ≤ 1 ∧
    adjust (1/2) (3/2) = 3/4 ∧
    adjust (3/5) (9/5) = 1 := by
  refine ⟨rfl, ?_, min_le_right _ _, by norm_num [adjust], by norm_num [adjust]⟩
  exact min_le_min (mul_le_mul_of_nonneg_left hmm hp0) le_rfl

/-- Witness for `adjust_spec` at `p = 1/2`, `m = 1`, `m' = 2`. -/
theorem adjust_spec_witness :
    adjust (1/2) 1 = min ((1/2 : ℚ) * 1) 1 ∧
    adjust (1/2) 1 ≤ adjust (1/2) 2 ∧
    adjust (1/2) 1 ≤ 1 ∧
    adjust (1/2) (3/2) = 3/4 ∧
    adjust (3/5) (9/5) = 1 :=
  adjust_spec (1/2) 1 2 (by norm_num) (by norm_num) (by norm_num) (by norm_num)

/-- C10: the Node-bridge result draws its `risk_level` from the
four-tier set LOW/MODERATE/HIGH/CRITICAL on success, computed from the
adjusted probability by the 0.3/0.6/0.8 thresholds (the same chain as
`determine_final_risk`), and is `"UNKNOWN"` with `ml_probability = 0.5`
and `confidence = 0.0` on internal failure; it is never a five-tier
VERY_LOW/SEVERE value. -/
theorem bridge_result_spec (raw mult : ℚ) :
    ((bridgePredictSuccess raw mult).risk_level = "LOW" ∨
     (bridgePredictSuccess raw mult).risk_level = "MODERATE" ∨
     (bridgePredictSuccess raw mult).risk_level = "HIGH" ∨
     (bridgePredictSuccess raw mult).risk_level = "CRITICAL") ∧
    (bridgePredictSuccess raw mult).risk_level
      = determine_final_risk (adjust raw mult) ∧
    (bridgePredictSuccess raw mult).ml_probability = adjust raw mult ∧
    ((bridgePredictSuccess raw mult).risk_level = "LOW"
      ↔ adjust raw mult < 3/10) ∧
    ((bridgePredictSuccess raw mult).risk_level = "MODERATE"
      ↔ 3/10 ≤ adjust raw mult ∧ adjust raw mult < 3/5) ∧
    ((bridgePredictSuccess raw mult).risk_level = "HIGH"
      ↔ 3/5 ≤ adjust raw mult ∧ adjust raw mult < 4/5) ∧
    ((bridgePredictSuccess raw mult).risk_level = "CRITICAL"
      ↔ 4/5 ≤ adjust raw mult) ∧
    (bridgePredictSuccess raw mult).risk_level ≠ "VERY_LOW" ∧
    (bridgePredictSuccess raw mult).risk_level ≠ "Very Low" ∧
    (bridgePredictSuccess raw mult).risk_level ≠ "SEVERE" ∧
    (bridgePredictSuccess raw mult).risk_level ≠ "Severe" ∧
    bridgePredictFailure.risk_level = "UNKNOWN" ∧
    bridgePredictFailure.ml_probability = 1/2 ∧
    bridgePredictFailure.confidence = 0 ∧
    bridgePredictFailure.success = false := by
  have hchain : (bridgePredictSuccess raw mult).risk_level
      = determine_final_risk (adjust raw mult) := rfl
  have hspec := determine_final_risk_spec (adjust raw mult)
  refine ⟨?_, hchain, rfl, ?_, ?_, ?_, ?_, ?_, ?_, ?_, ?_, rfl, rfl, rfl, rfl⟩
  · rw [hchain]; unfold determine_final_risk
    split_ifs <;> simp
  · rw [hchain]; exact hspec.1
  · rw [hchain]; exact hspec.2.1
  · rw [hchain]; exact hspec.2.2.1
  · rw [hchain]; exact hspec.2.2.2
  all_goals rw [hchain]; unfold determine_final_risk; split_ifs <;> simp

/-- Helper: the population variance is nonnegative. -/
theorem npVariance_nonneg (l : List ℚ) : 0 ≤ npVariance l := by
  unfold npVariance
  apply div_nonneg
  · apply List.sum_nonneg
    intro x hx
    simp only [List.mem_map] at hx
    obtain ⟨y, _, rfl⟩ := hx
    positivity
  · positivity

/-- Helper: two identical member predictions have zero variance. -/
theorem npVariance_pair_self (x : ℚ) : npVariance [x, x] = 0 := by
  simp [npVariance, npMean]

/-- C4: confidence is `clamp(1 - std(member predictions), 0, 1)` when
at least two member models are loaded and exactly `0.8` when fewer than
two are; it is always in `[0,1]`, and two identical member predictions
give confidence `1.0`. Stated for any function `std` satisfying the
`numpy.std` characterisation `IsNpStd`. -/
theorem confidenceFrom_spec (std : List ℚ → ℝ)
    (hstd : ∀ l, IsNpStd l (std l)) (preds : List ℚ) :
    (0 ≤ confidenceFrom std preds ∧ confidenceFrom std preds ≤ 1) ∧
    (1 < preds.length →
      confidenceFrom std preds = min (max (1 - std preds) 0) 1) ∧
    (preds.length < 2 → confidenceFrom std preds = 4/5) ∧
    (∀ x : ℚ, preds = [x, x] → confidenceFrom std preds = 1) := by
  refine ⟨⟨le_min (le_max_right _ _) zero_le_one, min_le_right _ _⟩, ?_, ?_, ?_⟩
  · intro h
    unfold confidenceFrom
    rw [if_pos h]
  · intro h
    unfold confidenceFrom
    rw [if_neg (by omega)]
    norm_num
  · rintro x rfl
    obtain ⟨hs0, hs2⟩ := hstd [x, x]
    have hzero : std [x, x] = 0 := by
      have hsq : (std [x, x]) ^ 2 = 0 := by
        rw [hs2, npVariance_pair_self]
        norm_num
      exact (pow_eq_zero_iff (two_ne_zero)).mp hsq
    unfold confidenceFrom
    rw [if_pos (by norm_num), hzero]
    norm_num

/-- Witness for `confidenceFrom_spec`: with `std` the real square root
of the population variance (which satisfies `IsNpStd`) and the two
identical member predictions `[0.5, 0.5]`, confidence evaluates to 1,
and the bounds hold. -/
theorem confidenceFrom_spec_witness :
    confidenceFrom (fun l => Real.sqrt (npVariance l)) [1/2, 1/2] = 1 ∧
    0 ≤ confidenceFrom (fun l => Real.sqrt (npVariance l)) [1/2, 1/2] ∧
    confidenceFrom (fun l => Real.sqrt (npVariance l)) [1/2, 1/2] ≤ 1 := by
  have hstd : ∀ l : List ℚ, IsNpStd l (Real.sqrt (npVariance l)) := by
    intro l
    exact ⟨Real.sqrt_nonneg _,
      Real.sq_sqrt (by exact_mod_cast npVariance_nonneg l)⟩
  have h := confidenceFrom_spec (fun l => Real.sqrt (npVariance l)) hstd [1/2, 1/2]
  exact ⟨h.2.2.2 (1/2) rfl, h.1.1, h.1.2⟩

/-- C2 (documenting a code bug): whenever the registry's ensemble slot
is absent, `predict_single` does NOT surface the distinct 503
service-unavailable condition: the 503 `HTTPException` raised in the
`try` body is caught by the blanket `except Exception` handler and
re-raised as a generic 500 internal failure. -/
theorem predictSingle_missing_ensemble_500 {α : Type} [LinearOrderedField α]
    (std : List ℚ → α) (reg : Registry) (features : List ℚ)
    (h : get_model reg "ensemble" = none) :
    predictSingle std reg features
      = .error ⟨500, "Prediction failed: 503: Ensemble model not available"⟩ ∧
    ∀ d : String, predictSingle std reg features ≠ .error ⟨503, d⟩ := by
  have hbody : predictSingleBody std reg features
      = .error ⟨503, "Ensemble model not available"⟩ := by
    unfold predictSingleBody
    rw [h]
  constructor
  · unfold predictSingle
    rw [hbody]
    rfl
  · intro d
    unfold predictSingle
    rw [hbody]
    simp

/-- Witness for `predictSingle_missing_ensemble_500` at the fresh
(empty) registry. -/
theorem predictSingle_missing_ensemble_500_witness :
    predictSingle (fun _ => (0 : ℚ)) freshRegistry []
      = .error ⟨500, "Prediction failed: 503: Ensemble model not available"⟩ :=
  (predictSingle_missing_ensemble_500 (fun _ => (0 : ℚ)) freshRegistry [] rfl).1

/-- C7 counterexample: on a freshly constructed registry,
`save_model("ensemble", ...)` puts the key `"ensemble"` in the models
map, yet `is_ready()` still returns false, because `is_ready` also
requires the `loaded` flag that only `load_models` sets. -/
theorem is_ready_save_counterexample :
    (lookupKey (save_model freshRegistry "ensemble" stubModel none).models
        "ensemble").isSome = true ∧
    is_ready (save_model freshRegistry "ensemble" stubModel none) = false := by
  constructor <;> rfl

/-- C7 amended: `is_ready()` returns true iff the `loaded` flag is set
AND the ensemble slot is populated; given the flag, it is independent
of every other part of the registry state (in particular of how many
member models are loaded). -/
theorem is_ready_amended (reg reg2 : Registry)
    (hl : reg.loaded = reg2.loaded)
    (he : (lookupKey reg.models "ensemble").isSome
        = (lookupKey reg2.models "ensemble").isSome) :
    is_ready reg = (reg.loaded && (lookupKey reg.models "ensemble").isSome) ∧
    is_ready reg = is_ready reg2 := by
  constructor
  · rfl
  · unfold is_ready
    rw [hl, he]

/-- Witness for `is_ready_amended` at a concrete registry pair. -/
theorem is_ready_amended_witness :
    is_ready (save_model freshRegistry "ensemble" stubModel none)
      = ((save_model freshRegistry "ensemble" stubModel none).loaded &&
         (lookupKey (save_model freshRegistry "ensemble" stubModel none).models
            "ensemble").isSome) :=
  (is_ready_amended (save_model freshRegistry "ensemble" stubModel none)
    (save_model freshRegistry "ensemble" stubModel none) rfl rfl).1

/-- Helper: when every artifact is missing, the `load_models` loop
leaves the registry untouched. -/
theorem foldl_loadSlot_of_empty_store (store : String → Option MLModel)
    (metaStore : String → Option Metadata)
    (hstore : ∀ f, store f = none) :
    ∀ (slots : List (String × String)) (reg : Registry),
      slots.foldl (loadSlot store metaStore) reg = reg := by
  intro slots
  induction slots with
  | nil => intro reg; rfl
  | cons s t ih =>
      intro reg
      rw [List.foldl_cons,
        show loadSlot store metaStore reg s = reg from by
          unfold loadSlot; rw [hstore]]
      exact ih reg

/-- C8 counterexample: with an artifact store yielding nothing,
`load_models` fabricates dummy models so the ensemble slot is
populated, but the metadata recorded for the ensemble slot has no
`is_fallback` key at all (no metadata is written for dummy models). -/
theorem dummy_fallback_counterexample :
    (lookupKey (load_models (fun _ => none) (fun _ => none) stubModel
        freshRegistry).models "ensemble").isSome = true ∧
    lookupKey (get_metadata (load_models (fun _ => none) (fun _ => none)
        stubModel freshRegistry) "ensemble") "is_fallback" = none := by
  constructor <;> rfl

/-- C8 amended: if `load_models` finds zero loadable artifacts, the
fabricated dummy models do populate the ensemble slot (and readiness
becomes true), but the fallback is NOT flagged in metadata: the
ensemble slot's metadata is empty, so the dummy model is
indistinguishable from a production model by its metadata. -/
theorem dummy_fallback_amended (store : String → Option MLModel)
    (metaStore : String → Option Metadata) (dummy : MLModel)
    (hstore : ∀ f, store f = none) :
    (lookupKey (load_models store metaStore dummy freshRegistry).models
        "ensemble").isSome = true ∧
    is_ready (load_models store metaStore dummy freshRegistry) = true ∧
    get_metadata (load_models store metaStore dummy freshRegistry)
        "ensemble" = [] := by
  have hload : load_models store metaStore dummy freshRegistry
      = ⟨(createDummyModels dummy freshRegistry).models,
         (createDummyModels dummy freshRegistry).modelMetadata, true⟩ := by
    unfold load_models
    rw [foldl_loadSlot_of_empty_store store metaStore hstore]
    have hcount : ((modelSlots.filter
        (fun slot => (store slot.2).isSome)).length) = 0 := by
      simp [modelSlots, hstore]
    simp only [hcount, if_pos]
  rw [hload]
  exact ⟨rfl, rfl, rfl⟩

/-- Witness for `dummy_fallback_amended` at the everywhere-empty
artifact store. -/
theorem dummy_fallback_amended_witness :
    is_ready (load_models (fun _ => none) (fun _ => none) stubModel
        freshRegistry) = true :=
  (dummy_fallback_amended (fun _ => none) (fun _ => none) stubModel
    (fun _ => rfl)).2.1

/-- C9 counterexample: a `get_historical_score` call (and likewise a
`get_district_info` call) does NOT leave the loaded historical-events
table equal to its prior state: it writes a query-dependent scratch
column (`distance` resp. `dist`) into the shared DataFrame. -/
theorem reference_mutation_counterexample :
    (get_historical_score constDist sampleState 0 0 50).2 ≠ sampleState ∧
    (get_district_info constDist sampleState 0 0).2 ≠ sampleState := by
  constructor <;> decide

/-- C9 amended: the prediction-path lookups never touch the
district-rank table nor the rows (original columns) of the
historical-events table; the only shared state they write is the
scratch distance column on the events DataFrame. -/
theorem reference_tables_amended (d : ℚ → ℚ → ℚ → ℚ → ℚ)
    (s : PredictorState) (lat lon radius : ℚ) :
    ((get_historical_score d s lat lon radius).2.eventRows = s.eventRows ∧
     (get_historical_score d s lat lon radius).2.districtTable = s.districtTable ∧
     (get_historical_score d s lat lon radius).2.distCol = s.distCol) ∧
    ((get_district_info d s lat lon).2.eventRows = s.eventRows ∧
     (get_district_info d s lat lon).2.districtTable = s.districtTable ∧
     (get_district_info d s lat lon).2.distanceCol = s.distanceCol) := by
  constructor
  · unfold get_historical_score
    split_ifs <;> exact ⟨rfl, rfl, rfl⟩
  · unfold get_district_info
    split_ifs <;> exact ⟨rfl, rfl, rfl⟩

/-- Helper: the count factor lies in `[0, 1]`. -/
theorem countScore_mem (n : ℕ) : 0 ≤ countScore n ∧ countScore n ≤ 1 := by
  unfold countScore
  constructor
  · exact le_min (by positivity) zero_le_one
  · exact min_le_right _ _

/-- Helper: every element of the filtered nearby list is a nonnegative
distance at most the radius. -/
theorem nearby_mem_bounds (d : ℚ → ℚ → ℚ → ℚ → ℚ)
    (hd : ∀ a b c e : ℚ, 0 ≤ d a b c e) (rows : List EventRow)
    (lat lon radius : ℚ) :
    ∀ x ∈ nearbyDistances d lat lon radius rows, 0 ≤ x ∧ x ≤ radius := by
  intro x hx
  have hmem := List.mem_of_mem_filter hx
  have hle : x ≤ radius := by
    have := List.of_mem_filter hx
    simpa using this
  refine ⟨?_, hle⟩
  unfold eventDistances at hmem
  simp only [List.mem_map] at hmem
  obtain ⟨e, _, rfl⟩ := hmem
  exact hd _ _ _ _

/-- Helper: the average of a nonempty list of values in `[0, radius]`
is itself in `[0, radius]`. -/
theorem avg_mem_of_bounds (l : List ℚ) (radius : ℚ)
    (hne : l ≠ []) (hb : ∀ x ∈ l, 0 ≤ x ∧ x ≤ radius) :
    0 ≤ l.sum / (l.length : ℚ) ∧ l.sum / (l.length : ℚ) ≤ radius := by
  have hlen : 0 < (l.length : ℚ) := by
    have : 0 < l.length := List.length_pos.mpr hne
    exact_mod_cast this
  constructor
  · exact div_nonneg (List.sum_nonneg (fun x hx => (hb x hx).1)) hlen.le
  · rw [div_le_iff hlen]
    calc l.sum ≤ l.length • radius :=
          List.sum_le_card_nsmul l radius (fun x hx => (hb x hx).2)
      _ = (l.length : ℚ) * radius := by
          rw [nsmul_eq_mul]
      _ = radius * (l.length : ℚ) := by ring

/-- Helper: the combined score over a nonempty within-radius distance
list lies in `[0, 1]`. -/
theorem combineScore_mem (radius : ℚ) (hr : 0 < radius) (l : List ℚ)
    (hne : l ≠ []) (hb : ∀ x ∈ l, 0 ≤ x ∧ x ≤ radius) :
    0 ≤ combineScore l.length (l.sum / (l.length : ℚ)) radius ∧
    combineScore l.length (l.sum / (l.length : ℚ)) radius ≤ 1 := by
  obtain ⟨hc0, hc1⟩ := countScore_mem l.length
  obtain ⟨ha0, ha1⟩ := avg_mem_of_bounds l radius hne hb
  have hq1 : l.sum / (l.length : ℚ) / radius ≤ 1 := by
    rw [div_le_one hr]
    exact ha1
  have hq0 : 0 ≤ l.sum / (l.length : ℚ) / radius := div_nonneg ha0 hr.le
  unfold combineScore proximityScore
  constructor <;> nlinarith

/-- C6: `get_historical_score` returns exactly 0 when no events lie
within the radius (per-event distances are produced by the distance
function `d`, which abstracts the haversine computation and is
nonnegative like it); otherwise it returns
`0.6 * min(count/10, 1) + 0.4 * (1 - avg_distance/radius)`, a value in
`[0, 1]` that is monotonically non-increasing in the average distance
for a fixed event count. -/
theorem historical_score_spec (d : ℚ → ℚ → ℚ → ℚ → ℚ)
    (s : PredictorState) (lat lon radius : ℚ) (hr : 0 < radius)
    (hd : ∀ a b c e : ℚ, 0 ≤ d a b c e) :
    (nearbyDistances d lat lon radius s.eventRows = []
        → (get_historical_score d s lat lon radius).1 = 0) ∧
    (nearbyDistances d lat lon radius s.eventRows ≠ [] →
      (get_historical_score d s lat lon radius).1
          = combineScore (nearbyDistances d lat lon radius s.eventRows).length
              ((nearbyDistances d lat lon radius s.eventRows).sum
                / ((nearbyDistances d lat lon radius s.eventRows).length : ℚ))
              radius ∧
      0 ≤ (get_historical_score d s lat lon radius).1 ∧
      (get_historical_score d s lat lon radius).1 ≤ 1) ∧
    (∀ (n : ℕ) (avg avgBig : ℚ), avg ≤ avgBig →
      combineScore n avgBig radius ≤ combineScore n avg radius) := by
  refine ⟨?_, ?_, ?_⟩
  · intro hempty
    unfold get_historical_score
    split_ifs with h1
    · rfl
    · show historicalScoreValue d lat lon radius s.eventRows = 0
      unfold historicalScoreValue
      rw [hempty]
      rfl
  · intro hne
    have hrows : ¬s.eventRows.isEmpty = true := by
      intro habs
      apply hne
      rw [List.isEmpty_iff] at habs
      rw [habs]
      rfl
    have hlen : (nearbyDistances d lat lon radius s.eventRows).length ≠ 0 := by
      simpa using hne
    have hval : (get_historical_score d s lat lon radius).1
        = combineScore (nearbyDistances d lat lon radius s.eventRows).length
            ((nearbyDistances d lat lon radius s.eventRows).sum
              / ((nearbyDistances d lat lon radius s.eventRows).length : ℚ))
            radius := by
      unfold get_historical_score
      rw [if_neg hrows]
      show historicalScoreValue d lat lon radius s.eventRows = _
      unfold historicalScoreValue
      rw [if_neg hlen]
    rw [hval]
    exact ⟨rfl,
      combineScore_mem radius hr (nearbyDistances d lat lon radius s.eventRows)
        hne (nearby_mem_bounds d hd s.eventRows lat lon radius)⟩
  · intro n avg avgBig hle
    unfold combineScore proximityScore
    have : avg / radius ≤ avgBig / radius := by gcongr
    linarith

/-- Witness for `historical_score_spec` at the one-event fixture with a
constant 10 km distance and the default 50 km radius. -/
theorem historical_score_spec_witness :
    (get_historical_score constDist sampleState 0 0 50).1
        = combineScore (nearbyDistances constDist 0 0 50 sampleState.eventRows).length
            ((nearbyDistances constDist 0 0 50 sampleState.eventRows).sum
              / ((nearbyDistances constDist 0 0 50 sampleState.eventRows).length : ℚ))
            50 ∧
    0 ≤ (get_historical_score constDist sampleState 0 0 50).1 ∧
    (get_historical_score constDist sampleState 0 0 50).1 ≤ 1 :=
  (historical_score_spec constDist sampleState 0 0 50 (by norm_num)
    (fun _ _ _ _ => by norm_num [constDist])).2.1 (by decide)

/-- C3 (documenting a code bug): when the model metadata declares the
derived feature name `rainfall_trigger_prob` and the caller supplies
`rainfall_24h = 100`, `rainfall_72h = 300`, the mapped value computed
at line 297 is 1, but the vector actually passed to the model is the
direct-lookup rebuild of lines 308-311, which zero-fills the derived
name: the computed derived features are discarded. -/
theorem mapped_features_discarded :
    predictFeatureVector (some ["rainfall_trigger_prob"])
        [("rainfall_24h", 100), ("rainfall_72h", 300)] 7 = [0] ∧
    intendedFeatureVector ["rainfall_trigger_prob"]
        [("rainfall_24h", 100), ("rainfall_72h", 300)] 7 = [1] ∧
    predictFeatureVector (some ["rainfall_trigger_prob"])
        [("rainfall_24h", 100), ("rainfall_72h", 300)] 7
      ≠ intendedFeatureVector ["rainfall_trigger_prob"]
        [("rainfall_24h", 100), ("rainfall_72h", 300)] 7 := by
  have h1 : predictFeatureVector (some ["rainfall_trigger_prob"])
      [("rainfall_24h", 100), ("rainfall_72h", 300)] 7 = [0] := by decide
  have h2 : intendedFeatureVector ["rainfall_trigger_prob"]
      [("rainfall_24h", 100), ("rainfall_72h", 300)] 7 = [1] := by
    simp +decide only [intendedFeatureVector, mappedFeatures, lookupD,
      List.find?, List.map]
    norm_num [min_def]
  refine ⟨h1, h2, ?_⟩
  rw [h1, h2]
  decide
